import Mathlib

/-!
Verification of the workload interpreter (`src/a1/workload_parser.py`) and the
load generator (`src/a1/sender.py`) of the CSC301 Java-API driving harness.

Modelling conventions:
* Python strings are Lean `String`s; the Python builtins used by the source
  (`str.strip`, `str.split`, `str.upper`, `str.lower`, `int`, `float`) are
  re-implemented below as structurally recursive functions over `String.data`
  so that concrete runs reduce in the kernel.
* Python floats are modelled as exact rationals (`Rat`).  The source only ever
  parses decimal literals and stores them in payloads; no float arithmetic is
  performed, so equality between a parsed literal and the same literal is
  exact in both models.
* A raised-and-unhandled Python exception is the `Except.error` case of a
  `PyError`; the interesting ones here are `NameError` (the source references
  the undefined name `lines`), `IndexError` (out-of-range `parts[i]`) and
  `ValueError` (failed `int`/`float` coercion, failed tuple unpacking).
* Outbound HTTP traffic and `print` calls are an `Event` trace; `requests`
  never raises into the interpreter in the source (`send_request` catches all
  request exceptions), so a dispatched request is just an event.
-/

/-- Python exceptions that the modelled code can raise and does not catch. -/
inductive PyError where
  | nameError (n : String)
  | indexError
  | valueError (msg : String)
deriving DecidableEq

/-- A JSON-payload value: Python `str`, `int` or `float` (exact rational). -/
inductive Value where
  | str (s : String)
  | int (n : Int)
  | float (q : Rat)
deriving DecidableEq

/-- A Python dict used as a request payload: keys in insertion order. -/
abbrev Payload := List (String × Value)

/-- Observable actions of the interpreter: HTTP requests issued by
`send_request`/`requests.post` and `print` output. `resetDatabases` is the
database-reset lifecycle action named by the spec; it is part of the event
vocabulary so that spec-level claims about it can be stated, and no function
in this development ever emits it (no code in the repository performs a
database reset). -/
inductive Event where
  | post (url : String) (payload : Option Payload)
  | get (url : String)
  | log (msg : String)
  | resetDatabases
deriving DecidableEq

/-! ## Python string builtins -/

/-- The six ASCII whitespace characters recognised by `str.strip`/`str.split`. -/
def isSpaceChar (c : Char) : Bool :=
  c = ' ' ∨ c = '\t' ∨ c = '\n' ∨ c = '\r' ∨ c = '\x0b' ∨ c = '\x0c'

/-- Python `str.strip()` (ASCII whitespace; the source never feeds it anything else). -/
def pyStrip (s : String) : String :=
  ⟨((s.data.dropWhile isSpaceChar).reverse.dropWhile isSpaceChar).reverse⟩

/-- Worker for `pySplit`: split on whitespace runs, dropping empty fields. -/
def splitWsAux : List Char → List Char → List (List Char)
  | [], [] => []
  | [], acc => [acc.reverse]
  | c :: r, acc =>
    if isSpaceChar c then
      if acc = [] then splitWsAux r [] else acc.reverse :: splitWsAux r []
    else splitWsAux r (c :: acc)

/-- Python `str.split()` with no separator: whitespace runs, no empty fields. -/
def pySplit (s : String) : List String :=
  (splitWsAux s.data []).map (⟨·⟩)

/-- Worker for `pySplitOn`: split on a single-character separator, keeping
empty fields (Python `str.split(sep)`). -/
def splitSepAux (sep : Char) : List Char → List Char → List (List Char)
  | [], acc => [acc.reverse]
  | c :: r, acc =>
    if c = sep then acc.reverse :: splitSepAux sep r []
    else splitSepAux sep r (c :: acc)

/-- Python `s.split(sep)` for a one-character separator: keeps empty fields,
so `"".split(":") = [""]` and `":".split(":") = ["", ""]`. -/
def pySplitOn (s : String) (sep : Char) : List String :=
  (splitSepAux sep s.data []).map (⟨·⟩)

/-- ASCII upper-casing of one character (`str.upper`). -/
def upChar (c : Char) : Char :=
  if 'a' ≤ c ∧ c ≤ 'z' then Char.ofNat (c.toNat - 32) else c

/-- ASCII lower-casing of one character (`str.lower`). -/
def lowChar (c : Char) : Char :=
  if 'A' ≤ c ∧ c ≤ 'Z' then Char.ofNat (c.toNat + 32) else c

/-- Python `str.upper()` (the source only ever upper-cases ASCII command words). -/
def pyUpper (s : String) : String := ⟨s.data.map upChar⟩

/-- Python `str.lower()`. -/
def pyLower (s : String) : String := ⟨s.data.map lowChar⟩

/-- Python `str.startswith("#")`. -/
def startsWithHash (s : String) : Bool :=
  match s.data with
  | '#' :: _ => true
  | _ => false

/-! ## Python numeric coercions -/

/-- Numeric value of a digit string. -/
def digitsVal (ds : List Char) : Nat :=
  ds.foldl (fun a c => 10 * a + (c.toNat - 48)) 0

/-- Consume a leading `+`/`-` sign. -/
def readSign : List Char → Int × List Char
  | '+' :: r => (1, r)
  | '-' :: r => (-1, r)
  | r => (1, r)

/-- Take the longest leading digit run. -/
def takeDigits : List Char → List Char × List Char
  | [] => ([], [])
  | c :: r =>
    if c.isDigit then
      let (d, r2) := takeDigits r
      (c :: d, r2)
    else ([], c :: r)

/-- Python `int(s)` on a whitespace-free token: optional sign then one or more
ASCII digits, else `ValueError`.  (Surrounding whitespace and underscore
grouping cannot occur in tokens produced by `str.split()`.) -/
def pyIntParse? (s : String) : Option Int :=
  let (sign, cs) := readSign s.data
  if cs ≠ [] ∧ cs.all Char.isDigit then some (sign * (digitsVal cs : Int)) else none

/-- Python `float(s)` on a whitespace-free token, restricted to finite decimal
literals: optional sign, digits with an optional point (at least one digit
overall), optional `e`/`E` exponent.  The special forms `inf`/`nan` are not
modelled; no claim mentions them. -/
def pyFloatParse? (s : String) : Option Rat :=
  let (sign, cs) := readSign s.data
  let (ip, cs1) := takeDigits cs
  let (fp, cs2) :=
    match cs1 with
    | '.' :: r => takeDigits r
    | r => ([], r)
  if ip = [] ∧ fp = [] then none
  else
    let mantNum : Int := sign * ((digitsVal ip * 10 ^ fp.length + digitsVal fp : Nat) : Int)
    let mantDen : Nat := 10 ^ fp.length
    match cs2 with
    | [] => some (mkRat mantNum mantDen)
    | e :: r =>
      if e = 'e' ∨ e = 'E' then
        let (esign, r1) := readSign r
        let (ed, r2) := takeDigits r1
        if ed = [] ∨ r2 ≠ [] then none
        else
          let ev : Int := esign * (digitsVal ed : Int)
          if 0 ≤ ev then some (mkRat (mantNum * (10 ^ ev.natAbs : Nat)) mantDen)
          else some (mkRat mantNum (mantDen * 10 ^ ev.natAbs))
      else none

/-- Python `int(s)` as the source uses it: raises `ValueError` with Python's message. -/
def pyInt (s : String) : Except PyError Int :=
  match pyIntParse? s with
  | some n => .ok n
  | none => .error (.valueError ("invalid literal for int() with base 10: '" ++ s ++ "'"))

/-- Python `float(s)` as the source uses it: raises `ValueError` with Python's message. -/
def pyFloat (s : String) : Except PyError Rat :=
  match pyFloatParse? s with
  | some q => .ok q
  | none => .error (.valueError ("could not convert string to float: '" ++ s ++ "'"))

/-- Equality of `Except` results is decidable (needed to evaluate concrete
runs with `decide`). -/
instance exceptDecEq {ε α : Type} [DecidableEq ε] [DecidableEq α] :
    DecidableEq (Except ε α)
  | .error e, .error f =>
    if h : e = f then .isTrue (by rw [h]) else .isFalse (by simp [h])
  | .error _, .ok _ => .isFalse (by simp)
  | .ok _, .error _ => .isFalse (by simp)
  | .ok x, .ok y =>
    if h : x = y then .isTrue (by rw [h]) else .isFalse (by simp [h])

/-- Python `parts[i]`: `IndexError` when out of range. -/
def pyIndex (l : List String) (i : Nat) : Except PyError String :=
  match l.get? i with
  | some v => .ok v
  | none => .error .indexError

/-- Python tuple unpacking `key, value = l` for a 2-tuple target, with
Python's `ValueError` messages. -/
def unpack2 (l : List String) : Except PyError (String × String) :=
  match l with
  | [a, b] => .ok (a, b)
  | [] => .error (.valueError "not enough values to unpack (expected 2, got 0)")
  | [_] => .error (.valueError "not enough values to unpack (expected 2, got 1)")
  | _ :: _ :: _ :: _ => .error (.valueError "too many values to unpack (expected 2)")

/-- Python `d[key] = v` on a Python dict: overwrite in place, else append. -/
def dictSet (d : Payload) (k : String) (v : Value) : Payload :=
  if d.any (fun p => p.1 = k) then
    d.map (fun p => if p.1 = k then (k, v) else p)
  else d ++ [(k, v)]

/-! ## Configuration (`config.json` contents) -/

/-- One `{ip, port}` entry of `config.json`.  The port is kept as the string
it is interpolated as in the source's f-strings. -/
structure ServiceEntry where
  ip : String
  port : String
deriving DecidableEq

/-- The four entries of `config.json` used by the source. -/
structure Config where
  userService : ServiceEntry
  productService : ServiceEntry
  orderService : ServiceEntry
  interServiceCommunication : ServiceEntry
deriving DecidableEq

/-- URL `f"http://{config['UserService']['ip']}:{config['UserService']['port']}/user"`. -/
def userURL (c : Config) : String :=
  "http://" ++ c.userService.ip ++ ":" ++ c.userService.port ++ "/user"

/-- URL `f"http://{config['ProductService']['ip']}:{config['ProductService']['port']}/product"`. -/
def productURL (c : Config) : String :=
  "http://" ++ c.productService.ip ++ ":" ++ c.productService.port ++ "/product"

/-- URL `f"http://{config['OrderService']['ip']}:{config['OrderService']['port']}/order"`. -/
def orderURL (c : Config) : String :=
  "http://" ++ c.orderService.ip ++ ":" ++ c.orderService.port ++ "/order"

/-- URL `f"http://{config[service]['ip']}:{config[service]['port']}/shutdown"`. -/
def shutdownURL (e : ServiceEntry) : String :=
  "http://" ++ e.ip ++ ":" ++ e.port ++ "/shutdown"

/-- A concrete configuration used for closed evaluations (the IPs/ports of
the repository's own service set-up; any values would do). -/
def cfg0 : Config :=
  ⟨⟨"127.0.0.1", "14001"⟩, ⟨"127.0.0.1", "15000"⟩,
   ⟨"127.0.0.1", "14000"⟩, ⟨"127.0.0.1", "14010"⟩⟩

/-! ## `parse_workload` as written (lines 18-143 of `workload_parser.py`)

The loop body strips the line, skips blanks/comments (printing them), splits
into `parts`, reads `parts[0].upper()` and `parts[1].lower()`, and then on
line 34 evaluates `if "shutdown" in lines:` — but no variable `lines` exists
anywhere in the function (the loop variable is `line`), so every substantive
line raises `NameError: name 'lines' is not defined`.  A one-token line
raises `IndexError` at `parts[1]` first.  The command-dispatch code at lines
52-143 is therefore unreachable in the program as written. -/

/-- One iteration of the `for line in f` loop of `parse_workload`
(lines 21-50), exactly as written: blank/comment lines are printed and
skipped; any substantive line raises (`IndexError` at `parts[1]` for a
one-token line, otherwise `NameError` for the undefined name `lines` at
line 34, before any of the dispatch code at lines 52-143 can run). -/
def processLine (line : String) : Except PyError (List Event) :=
  let l := pyStrip line
  if l = "" ∨ startsWithHash l then
    .ok [.log ("\nProcessing command: " ++ l)]
  else
    match pySplit l with
    | [] => .error .indexError
    | [_] => .error .indexError
    | _ :: _ :: _ => .error (.nameError "lines")

/-- Source `parse_workload(workload_file, config)`: fold `processLine` over the
file's lines.  Returns the emitted events, the uncaught exception if one was
raised (there is no try/except in the function, so it aborts the run), and
the lines left unexamined when the run aborted.  `cfg` is the `config`
argument; as written the function raises before ever reading it. -/
def parse_workload (cfg : Config) : List String → List Event × Option PyError × List String
  | [] => ([], none, [])
  | l :: rest =>
    match processLine l with
    | .ok evs =>
      let (evs2, err, rem) := parse_workload cfg rest
      (evs ++ evs2, err, rem)
    | .error e => ([], some e, rest)

/-! ## The command-dispatch block (lines 52-143) in isolation

`buildCommand` embeds lines 22-31 (strip, skip blanks/comments, split,
`parts[0].upper()`, `parts[1].lower()`) followed directly by the dispatch
chain of lines 52-143.  It deliberately omits the block at lines 33-50,
which in the source raises `NameError` on every substantive line (see
`processLine`) and makes the dispatch chain unreachable; `buildCommand` is
the faithful embedding of that chain taken on its own, i.e. of the spec's
Command Parser / Request Builder logic as the cited lines write it. -/

/-- The `for field in parts[3:]` loop of the USER `update` branch
(lines 68-70): `key, value = field.split(":")`, then `payload[key] = value`
with the value kept as a string. -/
def updLoopUser : List String → Payload → Except PyError Payload
  | [], payload => .ok payload
  | f :: rest, payload =>
    match unpack2 (pySplitOn f ':') with
    | .error e => .error e
    | .ok (key, value) => updLoopUser rest (dictSet payload key (.str value))

/-- The `for field in parts[3:]` loop of the PRODUCT `update` branch
(lines 104-110): `payload[key] = value`, then `price` re-set to
`float(value)` and `quantity` re-set to `int(value)`; other keys stay
strings. -/
def updLoopProduct : List String → Payload → Except PyError Payload
  | [], payload => .ok payload
  | f :: rest, payload =>
    match unpack2 (pySplitOn f ':') with
    | .error e => .error e
    | .ok (key, value) =>
      let payload := dictSet payload key (.str value)
      if key = "price" then
        match pyFloat value with
        | .error e => .error e
        | .ok q => updLoopProduct rest (dictSet payload key (.float q))
      else if key = "quantity" then
        match pyInt value with
        | .error e => .error e
        | .ok n => updLoopProduct rest (dictSet payload key (.int n))
      else updLoopProduct rest payload

/-- The `service == "USER"` branch (lines 53-86).  Payload entries are
evaluated in the order the Python dict literal writes them, so an
`int(parts[2])` failure raises before a missing `parts[3]` is touched. -/
def userBranch (cfg : Config) (command : String) (parts : List String) :
    Except PyError (List Event) := do
  let url := userURL cfg
  if command = "create" then
    let idTok ← pyIndex parts 2
    let idv ← pyInt idTok
    let username ← pyIndex parts 3
    let email ← pyIndex parts 4
    let password ← pyIndex parts 5
    pure [.post url (some [("command", .str "create"), ("id", .int idv),
      ("username", .str username), ("email", .str email),
      ("password", .str password)])]
  else if command = "update" then
    let idTok ← pyIndex parts 2
    let idv ← pyInt idTok
    let payload ← updLoopUser (parts.drop 3)
      [("command", .str "update"), ("id", .int idv)]
    pure [.post url (some payload)]
  else if command = "delete" then
    let idTok ← pyIndex parts 2
    let idv ← pyInt idTok
    let username ← pyIndex parts 3
    let email ← pyIndex parts 4
    let password ← pyIndex parts 5
    pure [.post url (some [("command", .str "delete"), ("id", .int idv),
      ("username", .str username), ("email", .str email),
      ("password", .str password)])]
  else if command = "get" then
    let idTok ← pyIndex parts 2
    let idv ← pyInt idTok
    pure [.get (url ++ "/" ++ toString idv)]
  else
    pure [.log ("Unknown USER command: " ++ command)]

/-- The `service == "PRODUCT"` branch (lines 88-128). -/
def productBranch (cfg : Config) (command : String) (parts : List String) :
    Except PyError (List Event) := do
  let url := productURL cfg
  if command = "create" then
    let idTok ← pyIndex parts 2
    let idv ← pyInt idTok
    let name ← pyIndex parts 3
    let description ← pyIndex parts 4
    let priceTok ← pyIndex parts 5
    let price ← pyFloat priceTok
    let qtyTok ← pyIndex parts 6
    let qty ← pyInt qtyTok
    pure [.post url (some [("command", .str "create"), ("id", .int idv),
      ("name", .str name), ("description", .str description),
      ("price", .float price), ("quantity", .int qty)])]
  else if command = "update" then
    let idTok ← pyIndex parts 2
    let idv ← pyInt idTok
    let payload ← updLoopProduct (parts.drop 3)
      [("command", .str "update"), ("id", .int idv)]
    pure [.post url (some payload)]
  else if command = "delete" then
    let idTok ← pyIndex parts 2
    let idv ← pyInt idTok
    let name ← pyIndex parts 3
    let description ← pyIndex parts 4
    let priceTok ← pyIndex parts 5
    let price ← pyFloat priceTok
    let qtyTok ← pyIndex parts 6
    let qty ← pyInt qtyTok
    pure [.post url (some [("command", .str "delete"), ("id", .int idv),
      ("name", .str name), ("description", .str description),
      ("price", .float price), ("quantity", .int qty)])]
  else if command = "info" then
    let idTok ← pyIndex parts 2
    let idv ← pyInt idTok
    pure [.get (url ++ "/" ++ toString idv)]
  else
    pure [.log ("Unknown PRODUCT command: " ++ command)]

/-- The `service == "ORDER"` branch (lines 130-141).  Note the payload's
`command` field is the literal `"place order"`, not the action token. -/
def orderBranch (cfg : Config) (command : String) (parts : List String) :
    Except PyError (List Event) := do
  let url := orderURL cfg
  if command = "place" then
    let pTok ← pyIndex parts 2
    let pid ← pyInt pTok
    let uTok ← pyIndex parts 3
    let uid ← pyInt uTok
    let qTok ← pyIndex parts 4
    let qty ← pyInt qTok
    pure [.post url (some [("command", .str "place order"),
      ("product_id", .int pid), ("user_id", .int uid),
      ("quantity", .int qty)])]
  else
    pure [.log ("Unknown ORDER command: " ++ command)]

/-- Lines 22-31 followed by the dispatch chain of lines 52-143, with the
broken block at lines 33-50 omitted (see the section comment above). -/
def buildCommand (cfg : Config) (line : String) : Except PyError (List Event) :=
  let l := pyStrip line
  if l = "" ∨ startsWithHash l then
    .ok [.log ("\nProcessing command: " ++ l)]
  else
    match pySplit l with
    | [] => .error .indexError
    | [_] => .error .indexError
    | p0 :: p1 :: rest =>
      let service := pyUpper p0
      let command := pyLower p1
      let parts := p0 :: p1 :: rest
      if service = "USER" then userBranch cfg command parts
      else if service = "PRODUCT" then productBranch cfg command parts
      else if service = "ORDER" then orderBranch cfg command parts
      else .ok [.log ("Unknown service: " ++ service)]

/-! ## `send_shutdown_requests` (lines 145-154)

The loop posts to each of the four configured services in order.  The
`requests.post` call is wrapped in `try/except requests.exceptions.
RequestException`, whose handler only prints — so an external-call failure
is logged and the loop continues; nothing is raised to the caller.  The
outcome of the i-th external call is supplied by the oracle `fails`
(`true` = the call raised a request exception).  The emitted `.post` event
records that the call was attempted. -/

/-- The `services` list of line 147 paired with the config entries the loop
reads. -/
def shutdownServices (cfg : Config) : List (String × ServiceEntry) :=
  [("UserService", cfg.userService), ("ProductService", cfg.productService),
   ("OrderService", cfg.orderService),
   ("InterServiceCommunication", cfg.interServiceCommunication)]

/-- Message `f"Failed to shut down {service}"` (line 154). -/
def shutdownFailMsg (name : String) : String := "Failed to shut down " ++ name

/-- The `for service in services` loop of lines 148-154. -/
def shutdownLoop (fails : Nat → Bool) : Nat → List (String × ServiceEntry) → List Event
  | _, [] => []
  | i, (name, e) :: rest =>
    let url := shutdownURL e
    [.log ("Shutting down " ++ name ++ " at " ++ url), .post url none] ++
      (if fails i then [.log (shutdownFailMsg name)] else []) ++
      shutdownLoop fails (i + 1) rest

/-- Source `send_shutdown_requests(config)`.  Its result type (`List Event`, not
`Except`) records that the function cannot raise: every request exception is
caught and logged. -/
def send_shutdown_requests (cfg : Config) (fails : Nat → Bool) : List Event :=
  shutdownLoop fails 0 (shutdownServices cfg)

/-- Project the URL out of a `.post` event (used to talk about which stop
requests a trace issues). -/
def postUrl? : Event → Option String
  | .post u _ => some u
  | _ => none

/-! ## `sender.py`, the load generator

One iteration of a worker is modelled with its random draws and the HTTP
response made explicit: `coin` is `random.random() < 0.5` (`true` selects
the POST branch), `randint lo hi` supplies each `random.randint(lo, hi)`
draw, and `resp` is the HTTP status code of the one request the iteration
makes (`none` = the request raised, i.e. timeout or connection error).
Shared-counter races are outside the model: the claims here are about a
single iteration's behaviour. -/

/-- The three shared id counters (`user_id`, `product_id`, `order_id`),
all initialised to 1 at lines 15-17. -/
structure Counters where
  user_id : Nat
  product_id : Nat
  order_id : Nat
deriving DecidableEq

/-- Constant `services[0]["base_url"]`. -/
def senderUserURL : String := "http://127.0.0.1:14001/user"

/-- Constant `services[1]["base_url"]`. -/
def senderProductURL : String := "http://127.0.0.1:15000/product"

/-- Constant `services[2]["base_url"]`. -/
def senderOrderURL : String := "http://127.0.0.1:14000/order"

/-- Source `is_successful(status_code)` (lines 19-21). -/
def is_successful (status_code : Nat) : Bool :=
  [200, 400, 401, 404, 409].contains status_code

/-- Result of one `send_request(service)` call: the returned boolean, the
HTTP calls made (none or one), and the counter state afterwards. -/
structure SendOutcome where
  result : Bool
  calls : List Event
  state : Counters
deriving DecidableEq

/-- Python `try: r = requests.post/get(...); return is_successful(r.status_code)
except Exception: return False`. -/
def respResult (resp : Option Nat) : Bool :=
  match resp with
  | some c => is_successful c
  | none => false

/-- Source `send_request(service)` (lines 23-84 of `sender.py`). -/
def sender_send_request (randint : Nat → Nat → Nat) (coin : Bool)
    (resp : Option Nat) (svc : String) (st : Counters) : SendOutcome :=
  if coin then
    -- POST branch (lines 27-68)
    if svc = "UserService" then
      let payload : Payload :=
        [("command", .str "create"), ("id", .int st.user_id),
         ("username", .str ("user" ++ toString st.user_id)),
         ("email", .str ("user" ++ toString st.user_id ++ "@test.com")),
         ("password", .str "password")]
      ⟨respResult resp, [.post senderUserURL (some payload)],
       ⟨st.user_id + 1, st.product_id, st.order_id⟩⟩
    else if svc = "ProductService" then
      let payload : Payload :=
        [("command", .str "create"), ("id", .int st.product_id),
         ("name", .str ("product" ++ toString st.product_id)),
         ("description", .str "desc"), ("price", .float (mkRat 10 1)),
         ("quantity", .int 50)]
      ⟨respResult resp, [.post senderProductURL (some payload)],
       ⟨st.user_id, st.product_id + 1, st.order_id⟩⟩
    else if svc = "OrderService" then
      if st.product_id = 1 ∨ st.user_id = 1 then
        -- line 50-51: `return True  # logically skip` — no request at all
        ⟨true, [], st⟩
      else
        let payload : Payload :=
          [("command", .str "place order"), ("id", .str (toString st.order_id)),
           ("product_id", .int (randint 1 (max 1 (st.product_id - 1)))),
           ("user_id", .int (randint 1 (max 1 (st.user_id - 1)))),
           ("quantity", .int 1)]
        ⟨respResult resp, [.post senderOrderURL (some payload)],
         ⟨st.user_id, st.product_id, st.order_id + 1⟩⟩
    else
      -- line 61-62: unknown service
      ⟨true, [], st⟩
  else
    -- GET branch (lines 70-84)
    if svc = "UserService" then
      ⟨respResult resp,
       [.get (senderUserURL ++ "/" ++ toString (randint 1 (max 1 (st.user_id - 1))))], st⟩
    else if svc = "ProductService" then
      ⟨respResult resp,
       [.get (senderProductURL ++ "/" ++ toString (randint 1 (max 1 (st.product_id - 1))))], st⟩
    else if svc = "OrderService" then
      ⟨respResult resp,
       [.get (senderOrderURL ++ "/" ++ toString (randint 1 (max 1 (st.order_id - 1))))], st⟩
    else
      ⟨true, [], st⟩

/-- Per-service success/failure counters (`global_success` / `global_fail`,
lines 12-13). -/
structure Tally where
  userService : Nat
  productService : Nat
  orderService : Nat
deriving DecidableEq

/-- Update `tally[service["name"]] += 1`.  `run_test` only ever indexes with one of
the three configured names, so the fall-through branch is unreachable there. -/
def bumpTally (t : Tally) (name : String) : Tally :=
  if name = "UserService" then ⟨t.userService + 1, t.productService, t.orderService⟩
  else if name = "ProductService" then ⟨t.userService, t.productService + 1, t.orderService⟩
  else if name = "OrderService" then ⟨t.userService, t.productService, t.orderService + 1⟩
  else t

/-- One iteration of the worker loop in `run_test` (lines 90-97): call
`send_request`, then increment the chosen service's success or failure
counter according to the returned boolean. -/
def run_test_iter (randint : Nat → Nat → Nat) (coin : Bool) (resp : Option Nat)
    (svc : String) (st : Counters) (succ fail : Tally) :
    Counters × Tally × Tally :=
  let out := sender_send_request randint coin resp svc st
  if out.result then (out.state, bumpTally succ svc, fail)
  else (out.state, succ, bumpTally fail svc)

/-! ## Helper lemmas -/

/-- Structure of a successful `processLine`: only blank/comment lines
succeed, emitting exactly one print event. -/
theorem processLine_ok_shape (l : String) (evs : List Event)
    (h : processLine l = .ok evs) :
    evs = [.log ("\nProcessing command: " ++ pyStrip l)] := by
  simp only [processLine] at h
  by_cases hb : pyStrip l = "" ∨ startsWithHash (pyStrip l) = true
  · rw [if_pos hb] at h
    exact (Except.ok.inj h).symm
  · rw [if_neg hb] at h
    rcases hs : pySplit (pyStrip l) with _ | ⟨a, _ | ⟨b, t⟩⟩ <;> rw [hs] at h <;> simp at h

/-- No run of `parse_workload` ever emits the spec's database-reset action:
the source contains no reset call. -/
theorem no_reset_event (cfg : Config) (ls : List String) :
    Event.resetDatabases ∉ (parse_workload cfg ls).1 := by
  induction ls with
  | nil => simp [parse_workload]
  | cons l rest ih =>
    rcases h2 : parse_workload cfg rest with ⟨evs2, rest2⟩
    rw [h2] at ih
    cases hp : processLine l with
    | ok evs =>
      have hsh := processLine_ok_shape l evs hp
      subst hsh
      simp only [parse_workload, hp, h2, List.cons_append, List.nil_append,
        List.mem_cons]
      rintro (h | h)
      · cases h
      · exact ih h
    | error e =>
      simp [parse_workload, hp]

/-- Length of a separator split is the separator count plus one. -/
theorem splitSepAux_length (sep : Char) : ∀ (cs acc : List Char),
    (splitSepAux sep cs acc).length = cs.count sep + 1
  | [], acc => rfl
  | c :: r, acc => by
    by_cases h : c = sep
    · simp [splitSepAux, h, splitSepAux_length sep r, List.count_cons]
    · simp [splitSepAux, h, splitSepAux_length sep r, List.count_cons]

/-- A Python `s.split(sep)` has one more field than `s` has separators. -/
theorem pySplitOn_length (s : String) (sep : Char) :
    (pySplitOn s sep).length = s.data.count sep + 1 := by
  simp [pySplitOn, splitSepAux_length]

/-- Unpacking a list that is not a 2-list raises `ValueError`. -/
theorem unpack2_error_of_length_ne_two (l : List String) (h : l.length ≠ 2) :
    ∃ msg, unpack2 l = .error (.valueError msg) := by
  rcases l with _ | ⟨a, _ | ⟨b, _ | ⟨c, r⟩⟩⟩
  · exact ⟨_, rfl⟩
  · exact ⟨_, rfl⟩
  · simp at h
  · exact ⟨_, rfl⟩

/-- Failure logs contribute no `.post` events. -/
theorem filterMap_postUrl_if (b : Bool) (m : String) :
    (if b then [Event.log m] else []).filterMap postUrl? = [] := by
  cases b <;> simp [postUrl?]

/-! ## The claims -/

/-- C1 counterexample.  The claim says that for a workload file whose first
substantive line is not `restart` (here the file is the single line
`USER get 1`), the database reset action is invoked exactly once.  In fact
it is invoked zero times: the run's event trace contains no reset action at
all. -/
theorem C1_counterexample :
    ((parse_workload cfg0 ["USER get 1"]).1).count Event.resetDatabases = 0 := by
  decide

/-- C1 amended.  No run of `parse_workload` ever invokes a database reset
(none exists in the code), and a file whose first substantive line is not
`restart` aborts at that line with `NameError` (undefined name `lines`,
line 34), dispatching nothing and leaving the remaining lines unexamined. -/
theorem C1_amended_thm :
    (∀ (cfg : Config) (ls : List String),
      ((parse_workload cfg ls).1).count Event.resetDatabases = 0) ∧
    parse_workload cfg0 ["USER get 1", "PRODUCT info 2"] =
      ([], some (.nameError "lines"), ["PRODUCT info 2"]) := by
  constructor
  · intro cfg ls
    exact List.count_eq_zero.mpr (no_reset_event cfg ls)
  · decide

/-- C2 counterexample.  For the file `USER get 1; shutdown; USER get 2` the
claim says processing halts at `USER get 2` (the line after the `shutdown`),
i.e. every line is examined and none remains.  In fact the run aborts at the
first line: the `shutdown` line and its follower are left unexamined. -/
theorem C2_counterexample :
    (parse_workload cfg0 ["USER get 1", "shutdown", "USER get 2"]).2.2 =
      ["shutdown", "USER get 2"] := by
  decide

/-- C2 amended.  Processing aborts with an unhandled `NameError` (undefined
name `lines`, line 34) at the first substantive line; the `shutdown` line is
never examined, no shutdown handling runs, and nothing at all is dispatched
before or after it. -/
theorem C2_amended_thm :
    parse_workload cfg0 ["USER get 1", "shutdown", "USER get 2"] =
      ([], some (.nameError "lines"), ["shutdown", "USER get 2"]) := by
  decide

/-- C3.  The payload-building code for `PRODUCT create 7 widget thing 9.99 3`
(lines 88-98), taken in isolation, builds exactly the claimed payload —
`mkRat 999 100` is 9.99 — and POSTs it to the product URL.  But in the
program as written that code is unreachable: the run aborts with `NameError`
(undefined `lines`, line 34) before anything is built or sent. -/
theorem C3_thm :
    parse_workload cfg0 ["PRODUCT create 7 widget thing 9.99 3"] =
      ([], some (.nameError "lines"), []) ∧
    buildCommand cfg0 "PRODUCT create 7 widget thing 9.99 3" =
      .ok [.post (productURL cfg0) (some [("command", .str "create"),
        ("id", .int 7), ("name", .str "widget"), ("description", .str "thing"),
        ("price", .float (mkRat 999 100)), ("quantity", .int 3)])] ∧
    productURL cfg0 = "http://127.0.0.1:15000/product" := by
  decide

/-- C4.  The PRODUCT `update` code (lines 99-110), taken in isolation, builds
exactly the claimed payload for `PRODUCT update 4 price:12.5 quantity:2`:
`price` coerced to float (`mkRat 25 2` is 12.5), `quantity` to int, in a
payload of only `command`, `id`, `price`, `quantity`.  But in the program as
written that code is unreachable: the run aborts with `NameError` first.
The third conjunct shows a key other than price/quantity stays a string. -/
theorem C4_thm :
    parse_workload cfg0 ["PRODUCT update 4 price:12.5 quantity:2"] =
      ([], some (.nameError "lines"), []) ∧
    buildCommand cfg0 "PRODUCT update 4 price:12.5 quantity:2" =
      .ok [.post (productURL cfg0) (some [("command", .str "update"),
        ("id", .int 4), ("price", .float (mkRat 25 2)),
        ("quantity", .int 2)])] ∧
    buildCommand cfg0 "PRODUCT update 4 name:gizmo" =
      .ok [.post (productURL cfg0) (some [("command", .str "update"),
        ("id", .int 4), ("name", .str "gizmo")])] := by
  decide

/-- C5 counterexample.  The claim says the malformed line `ORDER place 1 2`
is reported and skipped and processing continues with subsequent lines, so
in the file `ORDER place 1 2; USER get 5` no line would remain unexamined.
In fact the run aborts on the first line and never examines `USER get 5`. -/
theorem C5_counterexample :
    (parse_workload cfg0 ["ORDER place 1 2", "USER get 5"]).2.2 =
      ["USER get 5"] := by
  decide

/-- C5 amended.  For `ORDER place 1 2` no Transport call is made, but the
failure is an unhandled exception that aborts the run rather than a
reported-and-skipped error: the ORDER branch in isolation raises
`IndexError` reading the missing quantity token `parts[4]`, and the program
as written aborts even earlier with `NameError` at the first substantive
line; the following line is never processed. -/
theorem C5_amended_thm :
    buildCommand cfg0 "ORDER place 1 2" = .error .indexError ∧
    parse_workload cfg0 ["ORDER place 1 2", "USER get 5"] =
      ([], some (.nameError "lines"), ["USER get 5"]) := by
  decide

/-- C6 counterexample.  The claim says `USER delete 5` still parses and
dispatches a delete request.  In fact the delete branch reads `parts[3]`,
`parts[4]`, `parts[5]` unconditionally (lines 74-77), so with only the id
the line raises `IndexError` and dispatches nothing. -/
theorem C6_counterexample :
    buildCommand cfg0 "USER delete 5" = .error .indexError := by
  decide

/-- C6 amended.  A USER `delete` line requires id, username, email and
password tokens; with all four present it builds the delete payload (which
includes the three extra fields) and POSTs it to the user URL. -/
theorem C6_amended_thm :
    buildCommand cfg0 "USER delete 5 bob b@x.com pw" =
      .ok [.post (userURL cfg0) (some [("command", .str "delete"),
        ("id", .int 5), ("username", .str "bob"), ("email", .str "b@x.com"),
        ("password", .str "pw")])] := by
  decide

/-- C7 counterexample.  The claim says a line with a token failing numeric
coercion is skipped and the interpreter continues with the remaining lines,
so in the file `USER get x; USER get 1` no line would remain unexamined.
In fact the run aborts on the first line and never examines `USER get 1`. -/
theorem C7_counterexample :
    (parse_workload cfg0 ["USER get x", "USER get 1"]).2.2 =
      ["USER get 1"] := by
  decide

/-- C7 amended.  A token in a coerced position that fails `int`/`float`
coercion raises an uncaught `ValueError` naming the offending token (shown
for an int position and a float position in the dispatch code taken in
isolation); `parse_workload` catches nothing, so the offending line is not
skipped and the run does not continue — and in the program as written the
run aborts even earlier, with `NameError` at the first substantive line. -/
theorem C7_amended_thm :
    buildCommand cfg0 "USER get x" =
      .error (.valueError "invalid literal for int() with base 10: 'x'") ∧
    buildCommand cfg0 "PRODUCT create 7 w d nine 3" =
      .error (.valueError "could not convert string to float: 'nine'") ∧
    parse_workload cfg0 ["USER get x", "USER get 1"] =
      ([], some (.nameError "lines"), ["USER get 1"]) := by
  decide

/-- C8.  `send_shutdown_requests` attempts a stop request against exactly the
four logical service endpoints — UserService, ProductService, OrderService
and the inter-service-communication endpoint — in order, whatever the
outcome of each external call; and a failing call is only logged (the
failure message appears in the trace; the function's total result type
records that nothing is raised to the caller). -/
theorem C8_thm (cfg : Config) (fails : Nat → Bool) :
    (send_shutdown_requests cfg fails).filterMap postUrl? =
      [shutdownURL cfg.userService, shutdownURL cfg.productService,
       shutdownURL cfg.orderService, shutdownURL cfg.interServiceCommunication] ∧
    (fails 0 = true →
      Event.log (shutdownFailMsg "UserService") ∈ send_shutdown_requests cfg fails) ∧
    (fails 1 = true →
      Event.log (shutdownFailMsg "ProductService") ∈ send_shutdown_requests cfg fails) ∧
    (fails 2 = true →
      Event.log (shutdownFailMsg "OrderService") ∈ send_shutdown_requests cfg fails) ∧
    (fails 3 = true →
      Event.log (shutdownFailMsg "InterServiceCommunication") ∈
        send_shutdown_requests cfg fails) := by
  constructor
  · simp [send_shutdown_requests, shutdownServices, shutdownLoop,
      List.filterMap_append, filterMap_postUrl_if, postUrl?]
  refine ⟨fun hf => ?_, fun hf => ?_, fun hf => ?_, fun hf => ?_⟩ <;>
    simp [send_shutdown_requests, shutdownServices, shutdownLoop, hf]

/-- C8 witness: with every external call failing, the four stop requests are
still attempted in order and each failure is logged. -/
theorem C8_witness :
    (send_shutdown_requests cfg0 (fun _ => true)).filterMap postUrl? =
      [shutdownURL cfg0.userService, shutdownURL cfg0.productService,
       shutdownURL cfg0.orderService, shutdownURL cfg0.interServiceCommunication] ∧
    Event.log (shutdownFailMsg "UserService") ∈
      send_shutdown_requests cfg0 (fun _ => true) ∧
    Event.log (shutdownFailMsg "ProductService") ∈
      send_shutdown_requests cfg0 (fun _ => true) ∧
    Event.log (shutdownFailMsg "OrderService") ∈
      send_shutdown_requests cfg0 (fun _ => true) ∧
    Event.log (shutdownFailMsg "InterServiceCommunication") ∈
      send_shutdown_requests cfg0 (fun _ => true) :=
  ⟨(C8_thm cfg0 (fun _ => true)).1,
   (C8_thm cfg0 (fun _ => true)).2.1 rfl,
   (C8_thm cfg0 (fun _ => true)).2.2.1 rfl,
   (C8_thm cfg0 (fun _ => true)).2.2.2.1 rfl,
   (C8_thm cfg0 (fun _ => true)).2.2.2.2 rfl⟩

/-- C9.  In the load generator, when the chosen service is OrderService, the
POST (place) branch is selected, and the product and user id counters are
both still at their initial value 1, `send_request` returns `True` without
making any HTTP call and without touching the counters — and the `run_test`
worker loop then counts the iteration as a success for OrderService. -/
theorem C9_thm (randint : Nat → Nat → Nat) (resp : Option Nat) (st : Counters)
    (succ fail : Tally) (_h1 : st.user_id = 1) (h2 : st.product_id = 1) :
    sender_send_request randint true resp "OrderService" st = ⟨true, [], st⟩ ∧
    run_test_iter randint true resp "OrderService" st succ fail =
      (st, ⟨succ.userService, succ.productService, succ.orderService + 1⟩, fail) := by
  have hs : sender_send_request randint true resp "OrderService" st = ⟨true, [], st⟩ := by
    simp [sender_send_request, h2]
  refine ⟨hs, ?_⟩
  simp [run_test_iter, hs, bumpTally]

/-- C9 witness: the concrete initial state (all three counters at 1) with an
OrderService POST iteration: no call, result `True`, success counter bumped. -/
theorem C9_witness :
    sender_send_request (fun _ _ => 1) true none "OrderService" ⟨1, 1, 1⟩ =
      ⟨true, [], ⟨1, 1, 1⟩⟩ ∧
    run_test_iter (fun _ _ => 1) true none "OrderService" ⟨1, 1, 1⟩
        ⟨0, 0, 0⟩ ⟨0, 0, 0⟩ =
      (⟨1, 1, 1⟩, ⟨0, 0, 1⟩, ⟨0, 0, 0⟩) :=
  C9_thm (fun _ _ => 1) none ⟨1, 1, 1⟩ ⟨0, 0, 0⟩ ⟨0, 0, 0⟩ rfl rfl

/-- C10.  In the USER and PRODUCT `update` loops, a field token whose colon
count is not exactly one makes the `key, value = field.split(":")` step raise
`ValueError` instead of producing a payload, while a token with exactly one
colon unpacks; shown both at the loop level (any such first token, either
loop) and for whole update lines fed to the dispatch code. -/
theorem C10_thm (field field2 : String) (rest : List String) (payload : Payload)
    (h : field.data.count ':' ≠ 1) (h2 : field2.data.count ':' = 1) :
    (∃ msg, updLoopUser (field :: rest) payload = .error (.valueError msg)) ∧
    (∃ msg, updLoopProduct (field :: rest) payload = .error (.valueError msg)) ∧
    (∃ k v, unpack2 (pySplitOn field2 ':') = .ok (k, v)) ∧
    buildCommand cfg0 "USER update 7 nocolon" =
      .error (.valueError "not enough values to unpack (expected 2, got 1)") ∧
    buildCommand cfg0 "PRODUCT update 7 a:b:c" =
      .error (.valueError "too many values to unpack (expected 2)") := by
  have hlen : (pySplitOn field ':').length ≠ 2 := by
    rw [pySplitOn_length]
    omega
  obtain ⟨msg, hmsg⟩ := unpack2_error_of_length_ne_two _ hlen
  have hlen2 : (pySplitOn field2 ':').length = 2 := by
    rw [pySplitOn_length, h2]
  obtain ⟨k, v, hkv⟩ := List.length_eq_two.mp hlen2
  refine ⟨⟨msg, ?_⟩, ⟨msg, ?_⟩, ⟨k, v, ?_⟩, by decide, by decide⟩
  · simp [updLoopUser, hmsg]
  · simp [updLoopProduct, hmsg]
  · rw [hkv]
    rfl

/-- C10 witness: a zero-colon token fails both update loops, a one-colon
token unpacks, and the two concrete malformed update lines fail with
Python's unpacking errors. -/
theorem C10_witness :
    (∃ msg, updLoopUser ["nocolon"] [] = .error (.valueError msg)) ∧
    (∃ msg, updLoopProduct ["nocolon"] [] = .error (.valueError msg)) ∧
    (∃ k v, unpack2 (pySplitOn "a:b" ':') = .ok (k, v)) ∧
    buildCommand cfg0 "USER update 7 nocolon" =
      .error (.valueError "not enough values to unpack (expected 2, got 1)") ∧
    buildCommand cfg0 "PRODUCT update 7 a:b:c" =
      .error (.valueError "too many values to unpack (expected 2)") :=
  C10_thm "nocolon" "a:b" [] [] (by decide) (by decide)
